import Mathlib

/-!
Verification of the contact-form validation and submission pipeline of the
portfolio site (FORM_CONFIG, FormValidator, handleFormSubmit, sendEmail,
showFormMessage / hideFormMessage, checkRateLimit).

The JavaScript source is shallowly embedded: strings stay Lean strings with
JS semantics made explicit (UTF-16 length, the JS whitespace class used by
String.prototype.trim, regex literals turned into decidable predicates),
JS objects with possibly-missing entries become Option, a property read on
an undefined object becomes an Except error (TypeError), and the DOM /
localStorage state touched by the controller becomes an explicit record
threaded through the handlers.
-/

deriving instance DecidableEq for Except

namespace Portfolio

/-- A thrown JavaScript error; the validator can only throw TypeError
(reading a property of undefined). -/
inductive JsError
  | typeError
deriving DecidableEq, Repr

/-- The JS whitespace class: the characters matched by the regex class
backslash-s and removed by String.prototype.trim. -/
def jsWhitespace (c : Char) : Bool :=
  let n := c.toNat
  (9 ≤ n && n ≤ 13) || n = 32 || n = 160 || n = 0x1680 ||
  (0x2000 ≤ n && n ≤ 0x200A) || n = 0x2028 || n = 0x2029 ||
  n = 0x202F || n = 0x205F || n = 0x3000 || n = 0xFEFF

/-- String.prototype.trim: strip JS whitespace from both ends. -/
def jsTrim (s : String) : String :=
  String.mk (((s.toList.dropWhile jsWhitespace).reverse.dropWhile jsWhitespace).reverse)

/-- JS String.length counts UTF-16 code units: code points at or above
0x10000 count twice. -/
def utf16Length (s : String) : Nat :=
  (s.toList.map (fun c => if 0x10000 ≤ c.toNat then 2 else 1)).sum

/-- A character of the name pattern class: [a-zA-ZáéíóúÁÉÍÓÚñÑ backslash-s]. -/
def nameChar (c : Char) : Bool :=
  ('a' ≤ c && c ≤ 'z') || ('A' ≤ c && c ≤ 'Z') ||
  c = 'á' || c = 'é' || c = 'í' || c = 'ó' || c = 'ú' ||
  c = 'Á' || c = 'É' || c = 'Í' || c = 'Ó' || c = 'Ú' ||
  c = 'ñ' || c = 'Ñ' || jsWhitespace c

/-- The anchored name regex of FORM_CONFIG: one or more characters of the
class, spanning the whole string. -/
def namePatTest (s : String) : Bool :=
  !s.toList.isEmpty && s.toList.all nameChar

/-- A character allowed in the email regex pieces: anything but whitespace
and the at sign. -/
def emailChar (c : Char) : Bool :=
  !jsWhitespace c && c ≠ '@'

/-- The anchored email regex of FORM_CONFIG: local part (one or more
non-space non-at characters), an at sign, then a domain that splits as
piece, dot, piece with both pieces nonempty.  Equivalently: exactly one at
sign, everything else non-space, nonempty local part, and a dot strictly
inside the domain part. -/
def emailPatTest (s : String) : Bool :=
  let cs := s.toList
  let lp := cs.takeWhile (fun c => c ≠ '@')
  match cs.dropWhile (fun c => c ≠ '@') with
  | '@' :: dom =>
      !lp.isEmpty && lp.all emailChar && dom.all emailChar &&
      ((dom.drop 1).dropLast.contains '.')
  | _ => false

/-- The two regex literals appearing in FORM_CONFIG.validation. -/
inductive Pattern
  | namePat
  | emailPat
deriving DecidableEq, Repr

/-- RegExp.prototype.test for the two config regexes (both are fully
anchored, so search equals full match). -/
def Pattern.test : Pattern → String → Bool
  | .namePat, s => namePatTest s
  | .emailPat, s => emailPatTest s

/-- One entry of FORM_CONFIG.validation: the optional minLength, maxLength
and pattern properties of a field's rule object. -/
structure Rules where
  minLength : Option Nat
  maxLength : Option Nat
  pattern : Option Pattern
deriving DecidableEq, Repr

/-- One entry of FORM_CONFIG.errorMessages: the optional message strings of
a field's message object. -/
structure Messages where
  required : Option String
  minLength : Option String
  maxLength : Option String
  pattern : Option String
deriving DecidableEq, Repr

def nameRules : Rules := ⟨some 2, some 50, some Pattern.namePat⟩
def emailRules : Rules := ⟨none, none, some Pattern.emailPat⟩
def subjectRules : Rules := ⟨some 5, some 100, none⟩
def messageRules : Rules := ⟨some 10, some 1000, none⟩

/-- FORM_CONFIG.validation: rule object lookup by field name; undefined for
any other key. -/
def validationRules (f : String) : Option Rules :=
  if f = "name" then some nameRules
  else if f = "email" then some emailRules
  else if f = "subject" then some subjectRules
  else if f = "message" then some messageRules
  else none

def nameMessages : Messages :=
  ⟨some "El nombre es obligatorio",
   some "El nombre debe tener al menos 2 caracteres",
   some "El nombre no puede exceder 50 caracteres",
   some "El nombre solo puede contener letras y espacios"⟩

def emailMessages : Messages :=
  ⟨some "El email es obligatorio", none, none,
   some "Por favor ingresa un email válido"⟩

def subjectMessages : Messages :=
  ⟨some "El asunto es obligatorio",
   some "El asunto debe tener al menos 5 caracteres",
   some "El asunto no puede exceder 100 caracteres", none⟩

def messageMessages : Messages :=
  ⟨some "El mensaje es obligatorio",
   some "El mensaje debe tener al menos 10 caracteres",
   some "El mensaje no puede exceder 1000 caracteres", none⟩

/-- FORM_CONFIG.errorMessages: message object lookup by field name;
undefined for any other key. -/
def errorMessages (f : String) : Option Messages :=
  if f = "name" then some nameMessages
  else if f = "email" then some emailMessages
  else if f = "subject" then some subjectMessages
  else if f = "message" then some messageMessages
  else none

/-- FORM_CONFIG.ui constants. -/
def successMessageDuration : Nat := 5000
def errorMessageDuration : Nat := 7000

/-- The this.errors object of FormValidator: JS object as an insertion-order
association list; a value of none is the JS undefined stored as a value. -/
abbrev ErrMap := List (String × Option String)

/-- The JS delete of the key fieldName on the errors object. -/
def eraseField (errors : ErrMap) (f : String) : ErrMap :=
  List.filter (fun p => p.1 ≠ f) errors

/-- FormValidator.validateField (source lines 962-996), with the field
element replaced by its name and raw value.  The trimmed value is tested in
order: required, minLength, maxLength, pattern, each length rule gated by
JS truthiness of the configured number; the first failing check stores the
configured message in this.errors and returns false.  Reading a property of
an undefined rules/messages entry throws TypeError. -/
def FormValidator.validateField (errors : ErrMap) (fieldName raw : String) :
    Except JsError (ErrMap × Bool) :=
  let value := jsTrim raw
  let errors := eraseField errors fieldName
  if value = "" then
    match errorMessages fieldName with
    | none => Except.error JsError.typeError
    | some msgs => Except.ok (errors ++ [(fieldName, msgs.required)], false)
  else
    match validationRules fieldName with
    | none => Except.error JsError.typeError
    | some rules =>
      if (match rules.minLength with
          | some m => decide (m ≠ 0) && decide (utf16Length value < m)
          | none => false) then
        match errorMessages fieldName with
        | none => Except.error JsError.typeError
        | some msgs => Except.ok (errors ++ [(fieldName, msgs.minLength)], false)
      else if (match rules.maxLength with
          | some m => decide (m ≠ 0) && decide (m < utf16Length value)
          | none => false) then
        match errorMessages fieldName with
        | none => Except.error JsError.typeError
        | some msgs => Except.ok (errors ++ [(fieldName, msgs.maxLength)], false)
      else if (match rules.pattern with
          | some p => !p.test value
          | none => false) then
        match errorMessages fieldName with
        | none => Except.error JsError.typeError
        | some msgs => Except.ok (errors ++ [(fieldName, msgs.pattern)], false)
      else Except.ok (errors, true)

/-- The current values of the four form fields. -/
structure FormValues where
  name : String
  email : String
  subject : String
  message : String
deriving DecidableEq, Repr

/-- The form after form.reset(): all fields empty. -/
def FormValues.empty : FormValues := ⟨"", "", "", ""⟩

/-- FormValidator.validateForm (source lines 941-955): reset this.errors to
the empty object, validate the fields name, email, subject, message in
order, return true only if every field validated. -/
def FormValidator.validateForm (_errors : ErrMap) (fv : FormValues) :
    Except JsError (ErrMap × Bool) := do
  let errors : ErrMap := []
  let (errors, ok1) ← FormValidator.validateField errors "name" fv.name
  let (errors, ok2) ← FormValidator.validateField errors "email" fv.email
  let (errors, ok3) ← FormValidator.validateField errors "subject" fv.subject
  let (errors, ok4) ← FormValidator.validateField errors "message" fv.message
  pure (errors, ok1 && (ok2 && (ok3 && ok4)))

/-- The message a configured field records on failure: none when the field
validates, some stored message otherwise.  Mirrors the validateField cascade
for a field whose rules and messages objects are both defined. -/
def fieldFailure (rules : Rules) (msgs : Messages) (raw : String) :
    Option (Option String) :=
  let value := jsTrim raw
  if value = "" then some msgs.required
  else if (match rules.minLength with
      | some m => decide (m ≠ 0) && decide (utf16Length value < m)
      | none => false) then some msgs.minLength
  else if (match rules.maxLength with
      | some m => decide (m ≠ 0) && decide (m < utf16Length value)
      | none => false) then some msgs.maxLength
  else if (match rules.pattern with
      | some p => !p.test value
      | none => false) then some msgs.pattern
  else none

/-- A validateField verdict as the spec describes it: pass, or fail with a
violation kind and the configured message. -/
inductive SpecVerdict
  | pass
  | fail (kind : String) (msg : Option String)
deriving DecidableEq, Repr

/-- Modelled from the spec: the validateField procedure of section 4.1 —
trim the value; empty fails required; then, if a minLength rule exists and
the trimmed length is below it, fail minLength; then maxLength; then, if a
pattern rule exists and the trimmed value does not fully match, fail
pattern; otherwise succeed.  The message is looked up by (field, kind). -/
def specFieldOutcome (rules : Rules) (msgs : Messages) (raw : String) :
    SpecVerdict :=
  let value := jsTrim raw
  if value = "" then SpecVerdict.fail "required" msgs.required
  else if (match rules.minLength with
      | some m => decide (utf16Length value < m)
      | none => false) then SpecVerdict.fail "minLength" msgs.minLength
  else if (match rules.maxLength with
      | some m => decide (m < utf16Length value)
      | none => false) then SpecVerdict.fail "maxLength" msgs.maxLength
  else if (match rules.pattern with
      | some p => !p.test value
      | none => false) then SpecVerdict.fail "pattern" msgs.pattern
  else SpecVerdict.pass

/-- The errors-object entry a field contributes after validation. -/
def failEntry (f : String) : Option (Option String) → ErrMap
  | some m => [(f, m)]
  | none => []

/-- The result of one full validateForm pass over the four fields: the
final this.errors object and the returned boolean. -/
def validateFormResult (fv : FormValues) : ErrMap × Bool :=
  let r1 := fieldFailure nameRules nameMessages fv.name
  let r2 := fieldFailure emailRules emailMessages fv.email
  let r3 := fieldFailure subjectRules subjectMessages fv.subject
  let r4 := fieldFailure messageRules messageMessages fv.message
  (failEntry "name" r1 ++ failEntry "email" r2 ++
     failEntry "subject" r3 ++ failEntry "message" r4,
   r1.isNone && (r2.isNone && (r3.isNone && r4.isNone)))

/-- The shared form-message element and the pending auto-dismiss timeouts:
displayed holds (text, type) of the visible message, none when hidden;
timers holds the absolute fire times of setTimeout callbacks scheduled by
showFormMessage, none of which is ever cancelled. -/
structure MsgState where
  displayed : Option (String × String)
  timers : List Nat
deriving DecidableEq, Repr

/-- showFormMessage (source lines 1267-1284): overwrite the displayed
message and schedule a hide timeout after the type's configured duration;
the previous message's timeout is not cancelled. -/
def showFormMessage (m : MsgState) (now : Nat) (text kind : String) :
    MsgState :=
  let duration := if kind = "success" then successMessageDuration
                  else errorMessageDuration
  { displayed := some (text, kind), timers := m.timers ++ [now + duration] }

/-- hideFormMessage (source lines 1289-1297): clear the message element
unconditionally — no check of which message is currently displayed. -/
def hideFormMessage (m : MsgState) : MsgState :=
  { m with displayed := none }

/-- A pending auto-dismiss timeout firing: its callback invokes
hideFormMessage unconditionally; the fired timer leaves the pending list. -/
def fireMessageTimer (m : MsgState) (t : Nat) : MsgState :=
  { hideFormMessage m with timers := m.timers.erase t }

/-- Texts of the four controller messages. -/
def successMessage : String :=
  "¡Mensaje enviado correctamente! Te responderé pronto."
def sendErrorMessage : String :=
  "Error al enviar el mensaje. Por favor intenta nuevamente."
def unexpectedErrorMessage : String :=
  "Ocurrió un error inesperado. Por favor intenta más tarde."
def rateLimitMessage : String :=
  "Por favor espera un momento antes de enviar otro mensaje."

/-- The page state the submission pipeline reads and writes: the in-flight
flag, the validator's errors object, the form field values, the per-field
error displays (field name to shown text, none meaning the JS undefined was
rendered), the shared message element with its timers, and the
localStorage key lastFormSubmit (held as the parsed timestamp; every write
the code performs stores a decimal Date.now() string). -/
structure ControllerState where
  isSubmitting : Bool
  validatorErrors : ErrMap
  formValues : FormValues
  fieldErrors : List (String × Option String)
  msg : MsgState
  lastFormSubmit : Option Nat
deriving DecidableEq, Repr

/-- Observable actions of one handleFormSubmit run, in order. -/
inductive Ev
  | setSubmittingState (b : Bool)
  | sendCall (payload : FormValues)
  | showMessage (text kind : String)
  | formReset
deriving DecidableEq, Repr

/-- What the awaited sendEmail call does: resolve with a boolean, or let an
exception reach the top-level catch of handleFormSubmit. -/
inductive AwaitOutcome
  | resolved (success : Bool)
  | threw
deriving DecidableEq, Repr

/-- getFormData (source lines 1064-1076) restricted to the form fields: the
four values trimmed.  The timestamp and userAgent metadata also put in the
payload are environment strings outside the model. -/
def getFormData (fv : FormValues) : FormValues :=
  ⟨jsTrim fv.name, jsTrim fv.email, jsTrim fv.subject, jsTrim fv.message⟩

/-- displayValidationErrors (source lines 1242-1256): show each entry of
the errors object in its field's error element (upsert by field name). -/
def displayValidationErrors (shown : List (String × Option String))
    (errors : ErrMap) : List (String × Option String) :=
  errors.foldl
    (fun acc p =>
      if acc.any (fun q => q.1 = p.1) then
        acc.map (fun q => if q.1 = p.1 then p else q)
      else acc ++ [p])
    shown

/-- handleFormSubmit (source lines 1023-1058).  The run is parameterised by
the wall-clock time (used only to schedule message timeouts) and by the
outcome of the awaited sendEmail call.  Paths: re-entrancy guard when the
in-flight flag is set; validation failure displays the field errors; the
admitted path sets the flag, builds the payload, awaits the send, then
handleSubmitSuccess (reset, success message, clear field errors) or
handleSubmitError (error message); an exception at the await is caught and
mapped to the unexpected-error message; the finally clause clears the flag
on every path that entered the try block.  No rate check occurs:
checkRateLimit is never invoked and lastFormSubmit is never read or
written here. -/
def handleFormSubmit (s : ControllerState) (now : Nat)
    (outcome : AwaitOutcome) : ControllerState × List Ev :=
  if s.isSubmitting then (s, [])
  else
    match FormValidator.validateForm s.validatorErrors s.formValues with
    | Except.error _ =>
        -- unreachable for the four configured fields: the catch block
        -- would show the unexpected-error message and the finally clause
        -- still clears the flag
        let s1 := { s with
          msg := showFormMessage s.msg now unexpectedErrorMessage "error",
          isSubmitting := false }
        (s1, [Ev.showMessage unexpectedErrorMessage "error",
              Ev.setSubmittingState false])
    | Except.ok (verrs, ok) =>
      if ok then
        let s0 := { s with validatorErrors := verrs }
        let payload := getFormData s0.formValues
        match outcome with
        | AwaitOutcome.resolved true =>
            let s1 := { s0 with formValues := FormValues.empty }
            let s2 := { s1 with
              msg := showFormMessage s1.msg now successMessage "success" }
            let s3 := { s2 with fieldErrors := [] }
            ({ s3 with isSubmitting := false },
             [Ev.setSubmittingState true, Ev.sendCall payload, Ev.formReset,
              Ev.showMessage successMessage "success",
              Ev.setSubmittingState false])
        | AwaitOutcome.resolved false =>
            let s1 := { s0 with
              msg := showFormMessage s0.msg now sendErrorMessage "error" }
            ({ s1 with isSubmitting := false },
             [Ev.setSubmittingState true, Ev.sendCall payload,
              Ev.showMessage sendErrorMessage "error",
              Ev.setSubmittingState false])
        | AwaitOutcome.threw =>
            let s1 := { s0 with
              msg := showFormMessage s0.msg now unexpectedErrorMessage "error" }
            ({ s1 with isSubmitting := false },
             [Ev.setSubmittingState true, Ev.sendCall payload,
              Ev.showMessage unexpectedErrorMessage "error",
              Ev.setSubmittingState false])
      else
        let s1 := { s with
          validatorErrors := verrs,
          fieldErrors := displayValidationErrors s.fieldErrors verrs,
          isSubmitting := false }
        (s1, [Ev.setSubmittingState false])

/-- What one sendEmail call does: how long it suspends (milliseconds) and
the boolean it resolves with. -/
structure SendRun where
  delayMs : Nat
  result : Bool
deriving DecidableEq, Repr

/-- How the emailjs.send promise settles when the collaborator is
configured. -/
inductive EmailJsResult
  | resolvedOk
  | rejected
deriving DecidableEq, Repr

/-- sendEmail (source lines 1083-1113): with no collaborator initialised
(demo mode) it awaits a 2000 ms timeout and resolves true for any payload;
otherwise it forwards to emailjs.send, resolving true on success and —
because its own catch swallows the rejection — false on rejection.  It
never throws. -/
def sendEmail (emailjsInitialized : Bool) (r : EmailJsResult)
    (_data : FormValues) : SendRun :=
  if emailjsInitialized = false then ⟨2000, true⟩
  else match r with
    | EmailJsResult.resolvedOk => ⟨0, true⟩
    | EmailJsResult.rejected => ⟨0, false⟩

/-- The outcome of one checkRateLimit call: the returned boolean, the
storage key after the call, and the throttling message shown, if any. -/
structure RateLimitOutcome where
  allowed : Bool
  storage : Option Nat
  shownMessage : Option (String × String)
deriving DecidableEq, Repr

/-- checkRateLimit (source lines 1357-1369): with a stored last-submit
timestamp less than 60000 ms old it shows the throttling message and
returns false without writing; otherwise it stores the current time and
returns true.  The subtraction is JS number subtraction, hence over Int.
This function is defined in the source but never invoked by any caller. -/
def checkRateLimit (storage : Option Nat) (now : Nat) : RateLimitOutcome :=
  let minInterval : Int := 60000
  match storage with
  | some lastSubmit =>
      if (now : Int) - (lastSubmit : Int) < minInterval then
        ⟨false, storage, some (rateLimitMessage, "error")⟩
      else ⟨true, some now, none⟩
  | none => ⟨true, some now, none⟩

theorem validateField_eq (f : String) (rules : Rules) (msgs : Messages)
    (hr : validationRules f = some rules) (hm : errorMessages f = some msgs)
    (errors : ErrMap) (raw : String) :
    FormValidator.validateField errors f raw =
      Except.ok (eraseField errors f ++ failEntry f (fieldFailure rules msgs raw),
                 (fieldFailure rules msgs raw).isNone) := by
  unfold FormValidator.validateField fieldFailure
  rw [hr, hm]
  dsimp only
  split_ifs <;> simp [failEntry]

theorem validateForm_eq (e : ErrMap) (fv : FormValues) :
    FormValidator.validateForm e fv = Except.ok (validateFormResult fv) := by
  have h1 := validateField_eq "name" nameRules nameMessages rfl rfl
  have h2 := validateField_eq "email" emailRules emailMessages rfl rfl
  have h3 := validateField_eq "subject" subjectRules subjectMessages rfl rfl
  have h4 := validateField_eq "message" messageRules messageMessages rfl rfl
  simp only [FormValidator.validateForm, h1, h2, h3, h4, Except.bind, bind,
             validateFormResult, pure, eraseField]
  rcases fieldFailure nameRules nameMessages fv.name with _ | m1 <;>
  rcases fieldFailure emailRules emailMessages fv.email with _ | m2 <;>
  rcases fieldFailure subjectRules subjectMessages fv.subject with _ | m3 <;>
  simp [failEntry, Except.pure]

theorem fieldFailure_spec (rules : Rules) (msgs : Messages) (raw : String)
    (h1 : rules.minLength ≠ some 0) (h2 : rules.maxLength ≠ some 0) :
    fieldFailure rules msgs raw =
      (match specFieldOutcome rules msgs raw with
       | SpecVerdict.pass => none
       | SpecVerdict.fail _ m => some m) := by
  unfold fieldFailure specFieldOutcome
  rcases rules with ⟨minL, maxL, pat⟩
  rcases minL with _ | m <;> rcases maxL with _ | M <;>
    dsimp only <;> split_ifs <;> simp_all

/-- C2: for every configured field name, validateField trims the raw value
and then checks required, minLength, maxLength, pattern in this fixed
order, short-circuiting at the first failure and recording that failure's
configured message in this.errors — it agrees with the spec's cascade
specFieldOutcome.  In particular an empty-after-trim value with a pattern
rule reports required, and a raw value whose trim satisfies the length
rules passes them (length checks see the trimmed string). -/
theorem c2_validateField_trim_and_precedence (f : String) (rules : Rules)
    (msgs : Messages) (hr : validationRules f = some rules)
    (hm : errorMessages f = some msgs) (errors : ErrMap) (raw : String) :
    FormValidator.validateField errors f raw =
      Except.ok (match specFieldOutcome rules msgs raw with
        | SpecVerdict.pass => (eraseField errors f, true)
        | SpecVerdict.fail _ m => (eraseField errors f ++ [(f, m)], false)) := by
  have hz : rules.minLength ≠ some 0 ∧ rules.maxLength ≠ some 0 := by
    unfold validationRules at hr
    split_ifs at hr <;>
      simp_all [nameRules, emailRules, subjectRules, messageRules] <;>
      subst hr <;> simp
  rw [validateField_eq f rules msgs hr hm,
      fieldFailure_spec rules msgs raw hz.1 hz.2]
  rcases specFieldOutcome rules msgs raw with _ | ⟨k, m⟩ <;> simp [failEntry]

/-- C2 witness: at field email, the raw value of three spaces is empty
after trimming and — although email carries a pattern rule — reports the
configured required message; at field name, the raw value space-a-b-space
passes, because the minLength 2 check sees the trimmed two-character
string. -/
theorem c2_witness :
    FormValidator.validateField [] "email" "   " =
      Except.ok ([("email", some "El email es obligatorio")], false) ∧
    FormValidator.validateField [] "name" " ab " = Except.ok ([], true) := by
  constructor
  · exact (c2_validateField_trim_and_precedence "email" emailRules
      emailMessages rfl rfl [] "   ").trans (by decide)
  · exact (c2_validateField_trim_and_precedence "name" nameRules
      nameMessages rfl rfl [] " ab ").trans (by decide)

/-- C9: validateForm resets the errors object, so its result is the same
total function of the field values regardless of the prior errors state;
running it a second time from the state it produced yields the identical
Validation Result and boolean; and the returned boolean is true exactly
when no field failed (empty Validation Result). -/
theorem c9_validateForm_idempotent (e : ErrMap) (fv : FormValues) :
    FormValidator.validateForm e fv = Except.ok (validateFormResult fv) ∧
    FormValidator.validateForm (validateFormResult fv).1 fv =
      Except.ok (validateFormResult fv) ∧
    ((validateFormResult fv).2 = true ↔ (validateFormResult fv).1 = []) := by
  refine ⟨validateForm_eq e fv, validateForm_eq _ fv, ?_⟩
  unfold validateFormResult
  rcases fieldFailure nameRules nameMessages fv.name with _ | m1 <;>
  rcases fieldFailure emailRules emailMessages fv.email with _ | m2 <;>
  rcases fieldFailure subjectRules subjectMessages fv.subject with _ | m3 <;>
  rcases fieldFailure messageRules messageMessages fv.message with _ | m4 <;>
  simp [failEntry]

/-- C10: for a field name outside the configured rule table, validateField
throws TypeError — on the empty-trim path it reads the required property of
the undefined messages entry, on the nonempty path the minLength property
of the undefined rules entry — so the validator only returns a verdict for
the four configured field names. -/
theorem c10_unconfigured_field_throws (f : String)
    (hf : f ≠ "name" ∧ f ≠ "email" ∧ f ≠ "subject" ∧ f ≠ "message")
    (errors : ErrMap) (raw : String) :
    FormValidator.validateField errors f raw = Except.error JsError.typeError := by
  obtain ⟨h1, h2, h3, h4⟩ := hf
  unfold FormValidator.validateField
  have hr : validationRules f = none := by simp [validationRules, h1, h2, h3, h4]
  have hm : errorMessages f = none := by simp [errorMessages, h1, h2, h3, h4]
  rw [hr, hm]
  dsimp only
  split_ifs <;> rfl

/-- C10 witness: the unconfigured field name phone throws on an
empty-after-trim value and on a nonempty value alike. -/
theorem c10_witness :
    FormValidator.validateField [] "phone" "" = Except.error JsError.typeError ∧
    FormValidator.validateField [] "phone" "123" = Except.error JsError.typeError :=
  ⟨c10_unconfigured_field_throws "phone" (by decide) [] "",
   c10_unconfigured_field_throws "phone" (by decide) [] "123"⟩

/-- C1: the submission pipeline does not enforce the rate limit.  At a
concrete validated submit attempt whose stored last-submit timestamp is
30000 ms old — an instant at which checkRateLimit returns false and would
show the throttling message — handleFormSubmit nevertheless sets the
in-flight flag, invokes the external send with the payload, shows the
success message rather than the throttling message, and leaves the stored
timestamp untouched: checkRateLimit is never invoked by the pipeline. -/
theorem c1_pipeline_ignores_rate_limit :
    (checkRateLimit (some 1000000) 1030000).allowed = false ∧
    (checkRateLimit (some 1000000) 1030000).shownMessage =
      some (rateLimitMessage, "error") ∧
    handleFormSubmit
        ⟨false, [], ⟨"Ana", "ana@mail.com", "Hola mundo",
          "Este es un mensaje de prueba"⟩, [], ⟨none, []⟩, some 1000000⟩
        1030000 (AwaitOutcome.resolved true) =
      (⟨false, [], FormValues.empty, [],
         ⟨some (successMessage, "success"), [1035000]⟩, some 1000000⟩,
       [Ev.setSubmittingState true,
        Ev.sendCall ⟨"Ana", "ana@mail.com", "Hola mundo",
          "Este es un mensaje de prueba"⟩,
        Ev.formReset, Ev.showMessage successMessage "success",
        Ev.setSubmittingState false]) := by
  refine ⟨rfl, rfl, ?_⟩
  decide

/-- C3: after every completed submit cycle — one that starts with the
in-flight flag down and so enters the try block — the in-flight flag is
false again, whether the awaited send resolved true, resolved false, or
threw: the finally clause clears it on every path, including the
validation-failure early return. -/
theorem c3_inflight_flag_cleared (s : ControllerState) (now : Nat)
    (outcome : AwaitOutcome) (h : s.isSubmitting = false) :
    (handleFormSubmit s now outcome).1.isSubmitting = false := by
  unfold handleFormSubmit
  rw [h, validateForm_eq]
  dsimp only
  rcases hb : (validateFormResult s.formValues).2
  · simp
  · rcases outcome with ⟨b⟩ | _
    · cases b <;> simp
    · simp

/-- C3 witness: a concrete idle-state submit leaves the flag down. -/
theorem c3_witness :
    (handleFormSubmit ⟨false, [], FormValues.empty, [], ⟨none, []⟩, none⟩ 0
        (AwaitOutcome.resolved true)).1.isSubmitting = false :=
  c3_inflight_flag_cleared
    ⟨false, [], FormValues.empty, [], ⟨none, []⟩, none⟩ 0
    (AwaitOutcome.resolved true) rfl

/-- C4: while the in-flight flag is true, a further submit event returns at
the guard: the run performs no validation, no send, shows nothing, and
changes no state — the resulting state is the input state and the event
log is empty. -/
theorem c4_reentry_noop (s : ControllerState) (now : Nat)
    (outcome : AwaitOutcome) (h : s.isSubmitting = true) :
    handleFormSubmit s now outcome = (s, []) := by
  unfold handleFormSubmit
  rw [h]
  rfl

/-- C4 witness: a concrete in-flight state absorbs a second submit. -/
theorem c4_witness :
    handleFormSubmit ⟨true, [], FormValues.empty, [], ⟨none, []⟩, none⟩ 0
        (AwaitOutcome.resolved true) =
      (⟨true, [], FormValues.empty, [], ⟨none, []⟩, none⟩, []) :=
  c4_reentry_noop ⟨true, [], FormValues.empty, [], ⟨none, []⟩, none⟩ 0
    (AwaitOutcome.resolved true) rfl

/-- C5 counterexample: a validated submit whose send resolves successfully,
started with an empty lastFormSubmit key, finishes with the key still
empty: no success timestamp is persisted to durable storage, contradicting
the persistence conjunct of the claim (the only setItem of lastFormSubmit
in the source sits inside checkRateLimit, which is never called). -/
theorem c5_counterexample :
    (handleFormSubmit ⟨false, [], ⟨"Carlos", "c@d.es", "Asunto de prueba",
        "Mensaje de prueba largo"⟩, [], ⟨none, []⟩, none⟩ 5000
      (AwaitOutcome.resolved true)).1.lastFormSubmit = none := by decide

/-- C5 (amended): whenever the send resolves successfully for a validated
attempt, the controller clears all form fields, clears every per-field
error display, and shows the success message — but it writes nothing to
durable storage: the lastFormSubmit key is exactly what it was before. -/
theorem c5_amended_success_effects (s : ControllerState) (now : Nat)
    (h : s.isSubmitting = false)
    (hv : (validateFormResult s.formValues).2 = true) :
    (handleFormSubmit s now (AwaitOutcome.resolved true)).1.formValues =
        FormValues.empty ∧
    (handleFormSubmit s now (AwaitOutcome.resolved true)).1.fieldErrors = [] ∧
    (handleFormSubmit s now (AwaitOutcome.resolved true)).1.msg.displayed =
        some (successMessage, "success") ∧
    (handleFormSubmit s now (AwaitOutcome.resolved true)).1.lastFormSubmit =
        s.lastFormSubmit := by
  unfold handleFormSubmit
  rw [h, validateForm_eq]
  simp [hv, showFormMessage]

/-- C5 witness: a concrete validated submit with a successful send. -/
theorem c5_witness :
    (handleFormSubmit ⟨false, [], ⟨"María", "maria@sitio.com",
        "Consulta general", "Hola, me gustaría más información."⟩, [],
        ⟨none, []⟩, some 42⟩ 9000 (AwaitOutcome.resolved true)).1.formValues =
        FormValues.empty ∧
    (handleFormSubmit ⟨false, [], ⟨"María", "maria@sitio.com",
        "Consulta general", "Hola, me gustaría más información."⟩, [],
        ⟨none, []⟩, some 42⟩ 9000 (AwaitOutcome.resolved true)).1.fieldErrors = [] ∧
    (handleFormSubmit ⟨false, [], ⟨"María", "maria@sitio.com",
        "Consulta general", "Hola, me gustaría más información."⟩, [],
        ⟨none, []⟩, some 42⟩ 9000 (AwaitOutcome.resolved true)).1.msg.displayed =
        some (successMessage, "success") ∧
    (handleFormSubmit ⟨false, [], ⟨"María", "maria@sitio.com",
        "Consulta general", "Hola, me gustaría más información."⟩, [],
        ⟨none, []⟩, some 42⟩ 9000 (AwaitOutcome.resolved true)).1.lastFormSubmit =
        some 42 :=
  c5_amended_success_effects
    ⟨false, [], ⟨"María", "maria@sitio.com", "Consulta general",
      "Hola, me gustaría más información."⟩, [], ⟨none, []⟩, some 42⟩
    9000 rfl (by decide)

/-- C6 counterexample: the hide timeout scheduled by a first (error)
message at time 0 fires at 7000, after a second (success) message shown at
6000 has superseded it; the callback clears the element with no identity
check, so the newer message — still displayed just before the stale timer
fires — is hidden by it, contradicting the claimed no-op guard. -/
theorem c6_counterexample :
    (showFormMessage (showFormMessage ⟨none, []⟩ 0 "primer mensaje" "error")
        6000 "segundo mensaje" "success").displayed =
      some ("segundo mensaje", "success") ∧
    (fireMessageTimer
        (showFormMessage (showFormMessage ⟨none, []⟩ 0 "primer mensaje" "error")
          6000 "segundo mensaje" "success") 7000).displayed = none := by
  decide

/-- C6 (amended): a stale auto-dismiss timer firing after a newer message
has superseded it is not a guarded no-op: its callback invokes
hideFormMessage unconditionally, so whatever message is currently
displayed — in particular the newer one just shown — is cleared. -/
theorem c6_amended_stale_timer_hides (m : MsgState) (now t : Nat)
    (text kind : String) :
    (fireMessageTimer (showFormMessage m now text kind) t).displayed = none :=
  rfl

/-- C7: whenever the send resolves as failure, the controller shows the
generic send-error message, and whenever an exception reaches the catch
block it shows the generic unexpected-error message; in both cases the
form field values are exactly those before the attempt — the form is never
reset on a failure path. -/
theorem c7_failure_preserves_fields (s : ControllerState) (now : Nat)
    (h : s.isSubmitting = false)
    (hv : (validateFormResult s.formValues).2 = true) :
    ((handleFormSubmit s now (AwaitOutcome.resolved false)).1.formValues =
        s.formValues ∧
     (handleFormSubmit s now (AwaitOutcome.resolved false)).1.msg.displayed =
        some (sendErrorMessage, "error")) ∧
    ((handleFormSubmit s now AwaitOutcome.threw).1.formValues = s.formValues ∧
     (handleFormSubmit s now AwaitOutcome.threw).1.msg.displayed =
        some (unexpectedErrorMessage, "error")) := by
  unfold handleFormSubmit
  rw [h, validateForm_eq]
  simp [hv, showFormMessage]

/-- C7 witness: a concrete validated submit whose send fails, and one whose
pipeline throws, both keep the typed-in values. -/
theorem c7_witness :
    ((handleFormSubmit ⟨false, [], ⟨"Pedro", "pedro@mail.org",
        "Sobre el sitio", "Quisiera hacer una consulta."⟩, [], ⟨none, []⟩,
        some 5⟩ 100 (AwaitOutcome.resolved false)).1.formValues =
        ⟨"Pedro", "pedro@mail.org", "Sobre el sitio",
          "Quisiera hacer una consulta."⟩ ∧
     (handleFormSubmit ⟨false, [], ⟨"Pedro", "pedro@mail.org",
        "Sobre el sitio", "Quisiera hacer una consulta."⟩, [], ⟨none, []⟩,
        some 5⟩ 100 (AwaitOutcome.resolved false)).1.msg.displayed =
        some (sendErrorMessage, "error")) ∧
    ((handleFormSubmit ⟨false, [], ⟨"Pedro", "pedro@mail.org",
        "Sobre el sitio", "Quisiera hacer una consulta."⟩, [], ⟨none, []⟩,
        some 5⟩ 100 AwaitOutcome.threw).1.formValues =
        ⟨"Pedro", "pedro@mail.org", "Sobre el sitio",
          "Quisiera hacer una consulta."⟩ ∧
     (handleFormSubmit ⟨false, [], ⟨"Pedro", "pedro@mail.org",
        "Sobre el sitio", "Quisiera hacer una consulta."⟩, [], ⟨none, []⟩,
        some 5⟩ 100 AwaitOutcome.threw).1.msg.displayed =
        some (unexpectedErrorMessage, "error")) :=
  c7_failure_preserves_fields
    ⟨false, [], ⟨"Pedro", "pedro@mail.org", "Sobre el sitio",
      "Quisiera hacer una consulta."⟩, [], ⟨none, []⟩, some 5⟩
    100 rfl (by decide)

/-- C8: with no email collaborator configured (demo mode), sendEmail
suspends for the simulated 2000 ms delay and resolves true for every
payload and every would-be collaborator behaviour. -/
theorem c8_demo_mode_send (r : EmailJsResult) (data : FormValues) :
    sendEmail false r data = ⟨2000, true⟩ := rfl

end Portfolio
